import Mathlib

/-
Verification development for the `cafs` backend's webhook intent-routing and
inventory-action pipeline.  Python source functions are shallowly embedded as
executable Lean definitions: machine integers become `Nat`/`Int` with explicit
truncation where overflow matters, Python dictionaries and JSON values become
an inductive `PyVal` type, and fallible Python code (code that can raise)
returns `Except String`.
-/

set_option maxRecDepth 4096

/-! ## A model of Python/JSON values

Python values flowing through the pipeline (parsed JSON payloads, intent
dictionaries, handler results) are modelled by one inductive type.  Numbers
are modelled as integers: every numeric value the verified claims touch
(prices in VND, quantities, reorder points) is integral, so the `float`
fragment of the source is exact on this domain.  -/

inductive PyVal where
  | pnone : PyVal
  | pbool : Bool → PyVal
  | pint : Int → PyVal
  | pstr : String → PyVal
  | plist : List PyVal → PyVal
  | pdict : List (String × PyVal) → PyVal
deriving Repr

/-- Association-list lookup used to model Python `dict` key access. -/
def assocFind (kvs : List (String × PyVal)) (k : String) : Option PyVal :=
  match kvs with
  | [] => none
  | (k', v) :: rest => if k' = k then some v else assocFind rest k

/-- Association-list update used to model Python `dict` item assignment
(`d[k] = v`): replaces the value at `k` or appends the binding. -/
def assocSet (kvs : List (String × PyVal)) (k : String) (v : PyVal) :
    List (String × PyVal) :=
  match kvs with
  | [] => [(k, v)]
  | (k', v') :: rest =>
      if k' = k then (k, v) :: rest else (k', v') :: assocSet rest k v

/-- Python truthiness (`bool(v)`): `None`, `False`, `0`, `""`, `[]` and `{}`
are falsy, everything else is truthy. -/
def pyTruthy (v : PyVal) : Bool :=
  match v with
  | .pnone => false
  | .pbool b => b
  | .pint n => n ≠ 0
  | .pstr s => s ≠ ""
  | .plist xs => ¬ xs.isEmpty
  | .pdict kvs => ¬ kvs.isEmpty

/-- Model of Python `d.get(k, default)`.  Raises (returns `.error`) when the
receiver is not a dictionary, exactly as attribute access on a non-`dict`
raises `AttributeError` in the source. -/
def pyGetD (v : PyVal) (k : String) (dflt : PyVal) : Except String PyVal :=
  match v with
  | .pdict kvs => .ok ((assocFind kvs k).getD dflt)
  | _ => .error "AttributeError"

/-- Model of Python `d[k]` on a dictionary: `KeyError` when the key is
missing, `TypeError` when the receiver is not a dictionary. -/
def pySubscript (v : PyVal) (k : String) : Except String PyVal :=
  match v with
  | .pdict kvs =>
      match assocFind kvs k with
      | some x => .ok x
      | none => .error "KeyError"
  | _ => .error "TypeError"

/-- Lookup on a dictionary value, `none` on a non-dictionary; used only in
theorem statements to inspect results. -/
def dictGet (v : PyVal) (k : String) : Option PyVal :=
  match v with
  | .pdict kvs => assocFind kvs k
  | _ => none

/-- Whether a dictionary value carries a key; used in theorem statements. -/
def hasKey (v : PyVal) (k : String) : Bool :=
  (dictGet v k).isSome

/-- Whether a value is a Python `dict` (a JSON object). -/
def isDict (v : PyVal) : Bool :=
  match v with
  | .pdict _ => true
  | _ => false

/-- Comparison `v == s` of a Python value against a string literal, as in
`intent.get("intent") == "NORMAL_CONVERSATION"`. -/
def isStrEq (v : PyVal) (s : String) : Bool :=
  match v with
  | .pstr t => t = s
  | _ => false

/-! ## SHA-256 and HMAC-SHA256

Byte-level model of `hashlib.sha256` / `hmac.new(key, msg, sha256)` used by
`WebhookService.verify_signature`.  Bytes are `Nat`s below 256; 32-bit words
are `Nat`s reduced modulo `2 ^ 32`. -/

/-- Truncate to a 32-bit word. -/
def w32 (n : Nat) : Nat := n % 4294967296

/-- Rotate a 32-bit word right by `b` bits. -/
def rotr32 (b n : Nat) : Nat := w32 ((n >>> b) ||| (n <<< (32 - b)))

/-- Bitwise complement of a 32-bit word. -/
def not32 (n : Nat) : Nat := 4294967295 - n

def sha256Ch (e f g : Nat) : Nat := (e &&& f) ^^^ (not32 e &&& g)

def sha256Maj (a b c : Nat) : Nat := (a &&& b) ^^^ (a &&& c) ^^^ (b &&& c)

def bigSigma0 (a : Nat) : Nat := rotr32 2 a ^^^ rotr32 13 a ^^^ rotr32 22 a

def bigSigma1 (e : Nat) : Nat := rotr32 6 e ^^^ rotr32 11 e ^^^ rotr32 25 e

def smallSigma0 (x : Nat) : Nat := rotr32 7 x ^^^ rotr32 18 x ^^^ (x >>> 3)

def smallSigma1 (x : Nat) : Nat := rotr32 17 x ^^^ rotr32 19 x ^^^ (x >>> 10)

/-- The 64 SHA-256 round constants. -/
def sha256K : List Nat :=
  [1116352408, 1899447441, 3049323471, 3921009573, 961987163, 1508970993,
   2453635748, 2870763221, 3624381080, 310598401, 607225278, 1426881987,
   1925078388, 2162078206, 2614888103, 3248222580, 3835390401, 4022224774,
   264347078, 604807628, 770255983, 1249150122, 1555081692, 1996064986,
   2554220882, 2821834349, 2952996808, 3210313671, 3336571891, 3584528711,
   113926993, 338241895, 666307205, 773529912, 1294757372, 1396182291,
   1695183700, 1986661051, 2177026350, 2456956037, 2730485921, 2820302411,
   3259730800, 3345764771, 3516065817, 3600352804, 4094571909, 275423344,
   430227734, 506948616, 659060556, 883997877, 958139571, 1322822218,
   1537002063, 1747873779, 1955562222, 2024104815, 2227730452, 2361852424,
   2428436474, 2756734187, 3204031479, 3329325298]

/-- Working state: the eight 32-bit hash registers. -/
structure Hash8 where
  ha : Nat
  hb : Nat
  hc : Nat
  hd : Nat
  he : Nat
  hf : Nat
  hg : Nat
  hh : Nat
deriving Repr

/-- SHA-256 initial hash value. -/
def sha256H0 : Hash8 :=
  ⟨1779033703, 3144134277, 1013904242, 2773480762,
   1359893119, 2600822924, 528734635, 1541459225⟩

/-- Group bytes into big-endian 32-bit words. -/
def bytesToWords : List Nat → List Nat
  | b0 :: b1 :: b2 :: b3 :: rest =>
      (b0 * 16777216 + b1 * 65536 + b2 * 256 + b3) :: bytesToWords rest
  | _ => []

/-- Message-schedule extension.  The accumulator holds the schedule in
reverse (most recent word first), so `w[i-2]` is entry 1, `w[i-7]` entry 6,
`w[i-15]` entry 14 and `w[i-16]` entry 15. -/
def extendSched : Nat → List Nat → List Nat
  | 0, w => w
  | n + 1, w =>
      let nw := w32 (w.getD 15 0 + smallSigma0 (w.getD 14 0) +
        w.getD 6 0 + smallSigma1 (w.getD 1 0))
      extendSched n (nw :: w)

/-- One SHA-256 round. -/
def sha256Round (st : Hash8) (kw : Nat × Nat) : Hash8 :=
  let t1 := w32 (st.hh + bigSigma1 st.he + sha256Ch st.he st.hf st.hg +
    kw.1 + kw.2)
  let t2 := w32 (bigSigma0 st.ha + sha256Maj st.ha st.hb st.hc)
  ⟨w32 (t1 + t2), st.ha, st.hb, st.hc, w32 (st.hd + t1), st.he, st.hf, st.hg⟩

/-- Compress one 64-byte block into the running hash state. -/
def sha256Compress (st : Hash8) (block : List Nat) : Hash8 :=
  let sched := (extendSched 48 (bytesToWords block).reverse).reverse
  let r := (sha256K.zip sched).foldl sha256Round st
  ⟨w32 (st.ha + r.ha), w32 (st.hb + r.hb), w32 (st.hc + r.hc),
   w32 (st.hd + r.hd), w32 (st.he + r.he), w32 (st.hf + r.hf),
   w32 (st.hg + r.hg), w32 (st.hh + r.hh)⟩

/-- Big-endian 8-byte encoding of a length in bits. -/
def lenBytes8 (n : Nat) : List Nat :=
  [(n >>> 56) % 256, (n >>> 48) % 256, (n >>> 40) % 256, (n >>> 32) % 256,
   (n >>> 24) % 256, (n >>> 16) % 256, (n >>> 8) % 256, n % 256]

/-- SHA-256 padding: `128`, zeros to 56 mod 64, then the bit length. -/
def sha256Pad (msg : List Nat) : List Nat :=
  msg ++ 128 :: List.replicate ((119 - msg.length % 64) % 64) 0 ++
    lenBytes8 (8 * msg.length)

/-- Split a byte list into 64-byte blocks; fuel bounds the number of blocks. -/
def chunks64 : Nat → List Nat → List (List Nat)
  | 0, _ => []
  | _ + 1, [] => []
  | fuel + 1, l => l.take 64 :: chunks64 fuel (l.drop 64)

/-- Big-endian bytes of a list of 32-bit words. -/
def wordsToBytes (ws : List Nat) : List Nat :=
  (ws.map (fun w =>
    [(w >>> 24) % 256, (w >>> 16) % 256, (w >>> 8) % 256, w % 256])).flatten

/-- SHA-256 digest (32 bytes) of a byte string. -/
def sha256Bytes (msg : List Nat) : List Nat :=
  let padded := sha256Pad msg
  let st := (chunks64 (msg.length / 64 + 2) padded).foldl sha256Compress
    sha256H0
  wordsToBytes [st.ha, st.hb, st.hc, st.hd, st.he, st.hf, st.hg, st.hh]

/-- Lowercase hexadecimal digit. -/
def hexDigit (n : Nat) : Char :=
  if n < 10 then Char.ofNat (48 + n) else Char.ofNat (87 + n)

/-- Lowercase hex encoding of a byte string, as Python's `.hexdigest()`. -/
def bytesToHex (bs : List Nat) : String :=
  String.mk ((bs.map (fun b => [hexDigit (b / 16), hexDigit (b % 16)])).flatten)

/-- UTF-8 encoding of one code point. -/
def utf8EncodeChar (n : Nat) : List Nat :=
  if n < 128 then [n]
  else if n < 2048 then [192 + n / 64, 128 + n % 64]
  else if n < 65536 then
    [224 + n / 4096, 128 + (n / 64) % 64, 128 + n % 64]
  else
    [240 + n / 262144, 128 + (n / 4096) % 64, 128 + (n / 64) % 64,
     128 + n % 64]

/-- UTF-8 encoding of a string, as Python's `str.encode()`. -/
def utf8Encode (s : String) : List Nat :=
  (s.data.map (fun c => utf8EncodeChar c.toNat)).flatten

/-- HMAC-SHA256 over bytes, as `hmac.new(key, msg, hashlib.sha256)`. -/
def hmacSha256 (key msg : List Nat) : List Nat :=
  let k0 := if 64 < key.length then sha256Bytes key else key
  let kp := k0 ++ List.replicate (64 - k0.length) 0
  sha256Bytes ((kp.map (fun b => b ^^^ 92)) ++
    sha256Bytes ((kp.map (fun b => b ^^^ 54)) ++ msg))

/-- Hex digest of HMAC-SHA256, as the source's
`hmac.new(key, payload, hashlib.sha256).hexdigest()`. -/
def hmacSha256Hex (key msg : List Nat) : String :=
  bytesToHex (hmacSha256 key msg)

/-- Embedding of `WebhookService.verify_signature`
(`app/api/services/webhook/webhook.py`): when no webhook secret is
configured (`settings.WEBHOOK_SECRET_KEY` unset or empty, both falsy in
Python), return `True`; otherwise compare the expected hex HMAC-SHA256 of
the raw payload against the provided signature with string equality. -/
def verify_signature (secretKey : Option String) (payload : List Nat)
    (signature : String) : Bool :=
  match secretKey with
  | none => true
  | some sk =>
      if sk = "" then true
      else decide (hmacSha256Hex (utf8Encode sk) payload = signature)

example : sha256Bytes [] =
    [227, 176, 196, 66, 152, 252, 28, 20, 154, 251, 244, 200,
     153, 111, 185, 36, 39, 174, 65, 228, 100, 155, 147, 76,
     164, 149, 153, 27, 120, 82, 184, 85] := by decide

example : bytesToHex (sha256Bytes (utf8Encode "abc")) =
    "ba7816bf8f01cfea414140de5dae2223b00361a396177a9cb410ff61f20015ad" := by
  decide

/-! ## Claim C1: signature verification -/

/-- Claim C1: for every payload `p` and configured non-empty secret `s`,
`verify_signature` accepts the hex HMAC-SHA256 digest of `p` keyed by `s`;
for any provided signature different from that digest it returns `false`;
and with no secret configured (unset or empty) it returns `true` for every
payload regardless of the signature value. -/
theorem claim_C1_verify_signature (p : List Nat) (s sig : String) :
    (s ≠ "" →
      verify_signature (some s) p (hmacSha256Hex (utf8Encode s) p) = true) ∧
    (s ≠ "" → sig ≠ hmacSha256Hex (utf8Encode s) p →
      verify_signature (some s) p sig = false) ∧
    verify_signature none p sig = true ∧
    verify_signature (some "") p sig = true := by
  refine ⟨fun hs => ?_, fun hs hsig => ?_, rfl, rfl⟩
  · simp [verify_signature, hs]
  · simp only [verify_signature, if_neg hs]
    exact decide_eq_false (fun e => hsig e.symm)

/-- Witness for Claim C1 at a concrete secret, payload and wrong signature. -/
theorem claim_C1_verify_signature_witness :
    verify_signature (some "k") [104, 105]
      (hmacSha256Hex (utf8Encode "k") [104, 105]) = true ∧
    verify_signature (some "k") [104, 105] "deadbeef" = false ∧
    verify_signature none [104, 105] "anything" = true ∧
    verify_signature (some "") [104, 105] "anything" = true := by
  obtain ⟨h1, h2, h3, h4⟩ := claim_C1_verify_signature [104, 105] "k" "deadbeef"
  exact ⟨h1 (by decide), h2 (by decide) (by decide), h3, h4⟩

/-! ## A model of `json.loads` and Python string helpers

`ConversationService.analyze_intent` and `LLMService.parse_product_query`
decode LLM replies with the standard library's `json.loads` and clean them
with `str.replace`/`str.strip`.  These standard-library functions are
modelled here over the JSON fragment the pipeline exchanges: null, booleans,
integer numbers, strings (escapes taken literally), arrays and objects. -/

/-- Skip JSON/Python whitespace characters. -/
def isWsChar (c : Char) : Bool :=
  c = ' ' ∨ c = '\n' ∨ c = '\t' ∨ c = '\r'

def skipWs : List Char → List Char
  | [] => []
  | c :: rest => if isWsChar c then skipWs rest else c :: rest

/-- Scan a JSON string body up to the closing quote.  A backslash keeps the
following character literally (exact for `\"` and `\\`). -/
def scanStrAux : List Char → Option (List Char × List Char)
  | [] => none
  | '"' :: rest => some ([], rest)
  | '\\' :: c :: rest => (scanStrAux rest).map (fun p => (c :: p.1, p.2))
  | c :: rest => (scanStrAux rest).map (fun p => (c :: p.1, p.2))

/-- Scan a maximal run of decimal digits. -/
def scanDigits : List Char → (List Char × List Char)
  | [] => ([], [])
  | c :: rest =>
      if c.isDigit then
        let p := scanDigits rest
        (c :: p.1, p.2)
      else ([], c :: rest)

def digitsVal (ds : List Char) : Nat :=
  ds.foldl (fun a c => a * 10 + (c.toNat - 48)) 0

/-- Parser mode: a single value, the tail of an array, or the tail of an
object. -/
inductive JMode where
  | jval : JMode
  | jarr : JMode
  | jobj : JMode

/-- Fuel-bounded JSON parser returning the parsed value and the remaining
input. -/
def jsonRun : Nat → JMode → List Char → Option (PyVal × List Char)
  | 0, _, _ => none
  | fuel + 1, .jval, s =>
      match skipWs s with
      | [] => none
      | c :: rest =>
          if c = '[' then jsonRun fuel .jarr rest
          else if c = '{' then jsonRun fuel .jobj rest
          else if c = '"' then
            (scanStrAux rest).map (fun p => (.pstr (String.mk p.1), p.2))
          else if c = 't' then
            match rest with
            | 'r' :: 'u' :: 'e' :: r => some (.pbool true, r)
            | _ => none
          else if c = 'f' then
            match rest with
            | 'a' :: 'l' :: 's' :: 'e' :: r => some (.pbool false, r)
            | _ => none
          else if c = 'n' then
            match rest with
            | 'u' :: 'l' :: 'l' :: r => some (.pnone, r)
            | _ => none
          else if c = '-' then
            match scanDigits rest with
            | ([], _) => none
            | (ds, r) => some (.pint (-(digitsVal ds : Int)), r)
          else if c.isDigit then
            let p := scanDigits (c :: rest)
            some (.pint (digitsVal p.1 : Int), p.2)
          else none
  | fuel + 1, .jarr, s =>
      match skipWs s with
      | ']' :: rest => some (.plist [], rest)
      | s' =>
          match jsonRun fuel .jval s' with
          | none => none
          | some (v, r) =>
              match skipWs r with
              | ',' :: r2 =>
                  match skipWs r2 with
                  | ']' :: _ => none
                  | r3 =>
                      match jsonRun fuel .jarr r3 with
                      | some (.plist xs, r4) => some (.plist (v :: xs), r4)
                      | _ => none
              | ']' :: r2 => some (.plist [v], r2)
              | _ => none
  | fuel + 1, .jobj, s =>
      match skipWs s with
      | '}' :: rest => some (.pdict [], rest)
      | '"' :: rest =>
          match scanStrAux rest with
          | none => none
          | some (kcs, r) =>
              match skipWs r with
              | ':' :: r2 =>
                  match jsonRun fuel .jval r2 with
                  | none => none
                  | some (v, r3) =>
                      match skipWs r3 with
                      | ',' :: r4 =>
                          match skipWs r4 with
                          | '"' :: r5 =>
                              match jsonRun fuel .jobj ('"' :: r5) with
                              | some (.pdict kvs, r6) =>
                                  some (.pdict ((String.mk kcs, v) :: kvs), r6)
                              | _ => none
                          | _ => none
                      | '}' :: r4 => some (.pdict [(String.mk kcs, v)], r4)
                      | _ => none
              | _ => none
      | _ => none

/-- Model of `json.loads`: parse one JSON document and require that only
whitespace remains; `none` models a raised `json.JSONDecodeError`. -/
def jsonLoads (s : String) : Option PyVal :=
  match jsonRun (2 * s.length + 2) .jval s.data with
  | some (v, rest) => if (skipWs rest).isEmpty then some v else none
  | none => none

/-- Left-to-right non-overlapping substring replacement on character lists,
as Python `str.replace`. -/
def replaceAux (pat rep : List Char) : Nat → List Char → List Char
  | _, [] => []
  | 0, s => s
  | fuel + 1, c :: rest =>
      if pat.isPrefixOf (c :: rest) ∧ pat ≠ [] then
        rep ++ replaceAux pat rep fuel ((c :: rest).drop pat.length)
      else c :: replaceAux pat rep fuel rest

/-- Model of Python `s.replace(pat, rep)` (all occurrences). -/
def strReplace (s pat rep : String) : String :=
  String.mk (replaceAux pat.data rep.data s.data.length s.data)

def dropLeadingWs : List Char → List Char
  | [] => []
  | c :: rest => if isWsChar c then dropLeadingWs rest else c :: rest

/-- Model of Python `s.strip()`. -/
def strTrim (s : String) : String :=
  String.mk ((dropLeadingWs (dropLeadingWs s.data).reverse).reverse)

example : strReplace "a```jsonb```c" "```json" "" = "ab```c" := by decide
example : strTrim "  ab c\n" = "ab c" := by decide
example : jsonLoads " \x7b\"intent\": \"X\", \"parameters\": \x7b\"sku\": \"PNT-1\"\x7d\x7d "
    = some (.pdict [("intent", .pstr "X"),
        ("parameters", .pdict [("sku", .pstr "PNT-1")])]) := by rfl

/-! ## Claim C2: intent classification -/

/-- The error-tagged dictionary `analyze_intent` returns from its `except`
branch: `{"intent": None, "parameters": {}, "error": str(e)}`. -/
def intentErrorResult (msg : String) : PyVal :=
  .pdict [("intent", .pnone), ("parameters", .pdict []), ("error", .pstr msg)]

/-- The markdown-fence cleaning performed by `analyze_intent`:
`response.replace("```json", "").replace("```", "").strip()`. -/
def cleanIntentResponse (response : String) : String :=
  strTrim (strReplace (strReplace response "```json" "") "```" "")

/-- Embedding of `ConversationService.analyze_intent`
(`app/api/services/conversation/conversation.py`).  The Language Model
Client call `self.llm_service.query(messages)` is modelled by its outcome:
`.error e` when the call raises, `.ok response` when it returns text.  On
any raised exception the `except` branch returns the error-tagged
dictionary; otherwise the cleaned response is decoded with `json.loads` and
the decoded value is returned as-is (the decode-error message is abstracted
to the constant `"JSONDecodeError"`). -/
def analyze_intent (queryResult : Except String String) : PyVal :=
  match queryResult with
  | .error e => intentErrorResult e
  | .ok response =>
      match jsonLoads (cleanIntentResponse response) with
      | some v => v
      | none => intentErrorResult "JSONDecodeError"

/-- Counterexample to Claim C2: when the LLM reply is valid JSON but not an
object (here the array `"[1, 2]"`), `analyze_intent` returns the parsed
array unchanged — not an intent dictionary with kind Unknown, empty
parameters and an error message as the claim requires. -/
theorem claim_C2_counterexample :
    analyze_intent (.ok "[1, 2]") = .plist [.pint 1, .pint 2] ∧
    isDict (analyze_intent (.ok "[1, 2]")) = false := by
  constructor <;> rfl

/-- Claim C2 (amended): `analyze_intent` always returns a value and never
raises; when the provider call fails it returns the error-tagged dictionary
`{"intent": None, "parameters": {}, "error": <message>}` (the `intent` field
is `None`, not a distinguished "Unknown" label), and likewise when the
response is not valid JSON; but when the response is valid JSON the decoded
value is returned as-is, with no check that it is an object. -/
theorem claim_C2_analyze_intent (q : Except String String) :
    (∀ e, q = .error e → analyze_intent q = intentErrorResult e) ∧
    (∀ s, q = .ok s → jsonLoads (cleanIntentResponse s) = none →
      analyze_intent q = intentErrorResult "JSONDecodeError") ∧
    (∀ s v, q = .ok s → jsonLoads (cleanIntentResponse s) = some v →
      analyze_intent q = v) := by
  refine ⟨fun e he => ?_, fun s hs hn => ?_, fun s v hs hv => ?_⟩
  · subst he; rfl
  · subst hs; simp [analyze_intent, hn]
  · subst hs; simp [analyze_intent, hv]

/-- Witness for Claim C2 at concrete outcomes: a failed provider call, a
non-JSON reply, and a valid JSON object reply. -/
theorem claim_C2_analyze_intent_witness :
    analyze_intent (.error "boom") = intentErrorResult "boom" ∧
    analyze_intent (.ok "no json here") = intentErrorResult "JSONDecodeError" ∧
    analyze_intent (.ok "```json \x7b\"intent\": \"NORMAL_CONVERSATION\"\x7d ```")
      = .pdict [("intent", .pstr "NORMAL_CONVERSATION")] := by
  refine ⟨(claim_C2_analyze_intent (.error "boom")).1 "boom" rfl,
    (claim_C2_analyze_intent (.ok "no json here")).2.1 "no json here" rfl rfl,
    (claim_C2_analyze_intent _).2.2 _ _ rfl rfl⟩

/-! ## Claim C3: the action dispatcher -/

/-- Modelled from the spec: the module `app/api/constants/actions.py` is
imported by the webhook and inventory services but is not among the sources.
Per the specification's closed intent enum and the classifier prompt (which
names the labels), each constant's value is its own UPPER_SNAKE label;
`conversation.py` compares `intent.get("intent") == "NORMAL_CONVERSATION"`
against the same literal. -/
def CHECK_STOCK_LEVELS : String := "CHECK_STOCK_LEVELS"

def CREATE_RECEIPT : String := "CREATE_RECEIPT"

def UPDATE_STOCK_QUANTITIES : String := "UPDATE_STOCK_QUANTITIES"

def ADD_NEW_ITEMS : String := "ADD_NEW_ITEMS"

def UPDATE_ITEM : String := "UPDATE_ITEM"

def SEARCH_PRODUCTS : String := "SEARCH_PRODUCTS"

def NORMAL_CONVERSATION : String := "NORMAL_CONVERSATION"

/-- The handler methods of `InventoryService`, as named in the source. -/
inductive Handler where
  | check_stock : Handler
  | create_receipt : Handler
  | update_stock : Handler
  | add_item : Handler
  | update_item : Handler
  | search_product : Handler
  | normal_conversation : Handler
deriving DecidableEq, Repr

/-- Outcome of `InventoryService.handle_inventory_action`: either exactly one
handler is invoked with the intent's parameters, or the no-op result is
returned and no handler runs. -/
inductive DispatchResult where
  | invoked : Handler → PyVal → DispatchResult
  | noAction : String → DispatchResult
deriving Repr

/-- The `handlers` lookup table built inside `handle_inventory_action`
(`app/api/services/webhook/inventory.py`). -/
def handlersTable : List (String × Handler) :=
  [(CHECK_STOCK_LEVELS, .check_stock),
   (CREATE_RECEIPT, .create_receipt),
   (UPDATE_STOCK_QUANTITIES, .update_stock),
   (ADD_NEW_ITEMS, .add_item),
   (UPDATE_ITEM, .update_item),
   (SEARCH_PRODUCTS, .search_product),
   (NORMAL_CONVERSATION, .normal_conversation)]

def findHandler (table : List (String × Handler)) (k : String) :
    Option Handler :=
  match table with
  | [] => none
  | (k', h) :: rest => if k' = k then some h else findHandler rest k

/-- Python `handlers.get(key)` where the key is the arbitrary value found at
`intent.get("intent")`: only a string key can match the table. -/
def handlersLookup (k : PyVal) : Option Handler :=
  match k with
  | .pstr s => findHandler handlersTable s
  | _ => none

/-- Embedding of `InventoryService.handle_inventory_action`: look the
intent's `"intent"` value up in the table; with no handler found return
`{"message": "No inventory action required"}`, otherwise invoke exactly that
handler on `intent.get("parameters", {})`. -/
def handle_inventory_action (intent : PyVal) : Except String DispatchResult := do
  let key ← pyGetD intent "intent" .pnone
  match handlersLookup key with
  | none => pure (.noAction "No inventory action required")
  | some h => do
      let ps ← pyGetD intent "parameters" (.pdict [])
      pure (.invoked h ps)

/-- Unfolding of `handle_inventory_action` on a dictionary intent. -/
theorem handle_inventory_action_dict (kvs : List (String × PyVal)) :
    handle_inventory_action (.pdict kvs) =
      (match handlersLookup ((assocFind kvs "intent").getD .pnone) with
       | none => .ok (.noAction "No inventory action required")
       | some h =>
           .ok (.invoked h ((assocFind kvs "parameters").getD (.pdict [])))) :=
  rfl

/-- Claim C3: for every intent dictionary whose kind is present in the
dispatcher's handler table, dispatch invokes exactly that one handler with
the intent's parameters; for every intent whose kind is not present in the
table (including an absent or unrecognized kind), dispatch returns
`{"message": "No inventory action required"}` and invokes no handler. -/
theorem claim_C3_dispatch (kvs : List (String × PyVal)) :
    (∀ s h, assocFind kvs "intent" = some (.pstr s) →
      findHandler handlersTable s = some h →
      handle_inventory_action (.pdict kvs) =
        .ok (.invoked h ((assocFind kvs "parameters").getD (.pdict [])))) ∧
    (∀ k, assocFind kvs "intent" = some k → handlersLookup k = none →
      handle_inventory_action (.pdict kvs) =
        .ok (.noAction "No inventory action required")) ∧
    (assocFind kvs "intent" = none →
      handle_inventory_action (.pdict kvs) =
        .ok (.noAction "No inventory action required")) := by
  refine ⟨fun s h hfind hh => ?_, fun k hfind hnone => ?_, fun hnone => ?_⟩
  · rw [handle_inventory_action_dict, hfind]
    simp [handlersLookup, hh]
  · rw [handle_inventory_action_dict, hfind]
    simp [hnone]
  · rw [handle_inventory_action_dict, hnone]
    simp [handlersLookup]

/-- Witness for Claim C3: a mapped kind invokes its handler with the
parameters, an unmapped kind and an absent kind both yield the no-op
result. -/
theorem claim_C3_dispatch_witness :
    handle_inventory_action (.pdict [("intent", .pstr "CHECK_STOCK_LEVELS"),
        ("parameters", .pdict [("sku", .pstr "PNT-0001")])]) =
      .ok (.invoked .check_stock (.pdict [("sku", .pstr "PNT-0001")])) ∧
    handle_inventory_action (.pdict [("intent", .pstr "DANCE")]) =
      .ok (.noAction "No inventory action required") ∧
    handle_inventory_action (.pdict []) =
      .ok (.noAction "No inventory action required") := by
  refine ⟨?_, ?_, ?_⟩
  · exact (claim_C3_dispatch _).1 "CHECK_STOCK_LEVELS" .check_stock rfl rfl
  · exact (claim_C3_dispatch _).2.1 (.pstr "DANCE") rfl rfl
  · exact (claim_C3_dispatch _).2.2 rfl

/-! ## Python numeric conversions and currency formatting -/

def isDigitList (l : List Char) : Bool := l.all Char.isDigit

/-- Integer-literal parsing shared by the models of Python `int(s)` and
`float(s)`: surrounding whitespace and an optional sign are accepted (the
claims only exercise integral values, so the decimal-fraction forms that
`float` additionally accepts are outside the modelled fragment). -/
def parseIntStr (s : String) : Option Int :=
  match (strTrim s).data with
  | [] => none
  | '-' :: rest =>
      if rest ≠ [] ∧ isDigitList rest then some (-(digitsVal rest : Int))
      else none
  | '+' :: rest =>
      if rest ≠ [] ∧ isDigitList rest then some (digitsVal rest : Int)
      else none
  | l => if isDigitList l then some (digitsVal l : Int) else none

/-- Model of Python `int(v)`: integers and booleans convert, numeric strings
parse, and everything else (`None`, lists, dicts, non-numeric strings)
raises. -/
def pyToInt (v : PyVal) : Except String Int :=
  match v with
  | .pint n => .ok n
  | .pbool b => .ok (if b then 1 else 0)
  | .pstr s =>
      match parseIntStr s with
      | some n => .ok n
      | none => .error "ValueError"
  | _ => .error "TypeError"

/-- Model of Python `float(v)` on the integral fragment the pipeline
exchanges (see `parseIntStr`). -/
def pyToFloat (v : PyVal) : Except String Int :=
  match v with
  | .pint n => .ok n
  | .pbool b => .ok (if b then 1 else 0)
  | .pstr s =>
      match parseIntStr s with
      | some n => .ok n
      | none => .error "ValueError"
  | _ => .error "TypeError"

/-- Split a reversed digit list into groups of three. -/
def chunk3 : List Char → List (List Char)
  | [] => []
  | [a] => [[a]]
  | [a, b] => [[a, b]]
  | a :: b :: c :: rest => [a, b, c] :: chunk3 rest

def joinComma : List (List Char) → List Char
  | [] => []
  | [g] => g
  | g :: rest => g ++ ',' :: joinComma rest

/-- Thousands-separated decimal rendering of a natural number, as the
integer case of Python's format spec `{:,.0f}`. -/
def commaFormat (n : Nat) : String :=
  String.mk
    (joinComma ((chunk3 (Nat.toDigits 10 n).reverse).reverse.map List.reverse))

/-- Thousands-separated rendering of an integer value, as `f"{x:,.0f}"` on
an integral `x`. -/
def commaFormatInt (n : Int) : String :=
  if n < 0 then "-" ++ commaFormat n.natAbs else commaFormat n.natAbs

example : commaFormat 1234567 = "1,234,567" := by rfl
example : commaFormat 0 = "0" := by rfl
example : commaFormat 1000 = "1,000" := by rfl

/-! ## Claims C4 and C7: stock-status and price formatting -/

/-- Embedding of the per-hit body of `InventoryService._format_stock_items`
(`app/api/services/webhook/inventory.py`): read `hit["_source"]`, convert
`quantity` and `reorder_point` with `int(...)` (default `0`), derive the
Vietnamese stock status, format the price as `f"{float(...):,.0f} VND"`
(default `0`), and assemble the formatted item dictionary. -/
def format_stock_item (hit : PyVal) : Except String PyVal := do
  let source ← pySubscript hit "_source"
  let quantity ← pyToInt (← pyGetD source "quantity" (.pint 0))
  let reorder_point ← pyToInt (← pyGetD source "reorder_point" (.pint 0))
  let stock_status :=
    if quantity = 0 then "Hết hàng"
    else if quantity ≤ reorder_point then "Sắp hết hàng"
    else "Còn hàng"
  let title ← pyGetD source "title" (.pstr "")
  let price ← pyToFloat (← pyGetD source "price" (.pint 0))
  let sku ← pyGetD source "sku" (.pstr "")
  pure (.pdict [("title", title), ("quantity", .pint quantity),
    ("status", .pstr stock_status), ("reorder_point", .pint reorder_point),
    ("price", .pstr (commaFormatInt price ++ " VND")), ("sku", sku)])

/-- Embedding of `InventoryService._format_stock_items`: format every
Elasticsearch hit. -/
def format_stock_items (hits : List PyVal) : Except String (List PyVal) :=
  hits.mapM format_stock_item

/-- Stock hit whose `_source` carries an integral quantity and reorder
point; used to state Claim C4. -/
def mkStockHit (q rp : Int) : PyVal :=
  .pdict [("_source", .pdict
    [("quantity", .pint q), ("reorder_point", .pint rp)])]

/-- The `"status"` field of the single item produced by
`format_stock_items`; used in theorem statements. -/
def stockStatusOf (res : Except String (List PyVal)) : Option PyVal :=
  match res with
  | .ok [item] => dictGet item "status"
  | _ => none

/-- The `"price"` field of the single item produced by
`format_stock_items`; used in theorem statements. -/
def stockPriceOf (res : Except String (List PyVal)) : Option PyVal :=
  match res with
  | .ok [item] => dictGet item "price"
  | _ => none

/-- Unfolding of `format_stock_items` on one integral stock hit. -/
theorem format_stock_items_mkStockHit (q rp : Int) :
    format_stock_items [mkStockHit q rp] =
      .ok [.pdict [("title", .pstr ""), ("quantity", .pint q),
        ("status", .pstr (if q = 0 then "Hết hàng"
          else if q ≤ rp then "Sắp hết hàng" else "Còn hàng")),
        ("reorder_point", .pint rp),
        ("price", .pstr (commaFormatInt 0 ++ " VND")), ("sku", .pstr "")]] :=
  rfl

/-- Claim C4: in the stock-check result formatting, an item with quantity 0
has status "Hết hàng"; a positive quantity at most the reorder point gives
"Sắp hết hàng"; and a quantity above the (nonnegative) reorder point gives
"Còn hàng". -/
theorem claim_C4_stock_status (q rp : Int) :
    (q = 0 →
      stockStatusOf (format_stock_items [mkStockHit q rp]) =
        some (.pstr "Hết hàng")) ∧
    (0 < q → q ≤ rp →
      stockStatusOf (format_stock_items [mkStockHit q rp]) =
        some (.pstr "Sắp hết hàng")) ∧
    (0 ≤ rp → rp < q →
      stockStatusOf (format_stock_items [mkStockHit q rp]) =
        some (.pstr "Còn hàng")) := by
  refine ⟨fun h0 => ?_, fun hpos hle => ?_, fun hrp hlt => ?_⟩
  · rw [format_stock_items_mkStockHit]
    simp [stockStatusOf, dictGet, assocFind, h0]
  · rw [format_stock_items_mkStockHit]
    simp [stockStatusOf, dictGet, assocFind, hpos.ne', hle]
  · rw [format_stock_items_mkStockHit]
    have hne : q ≠ 0 := by omega
    have hgt : ¬ q ≤ rp := by omega
    simp [stockStatusOf, dictGet, assocFind, hne, hgt]

/-- Witness for Claim C4 at the claim's boundary cases: quantity 0, quantity
equal to the reorder point, and quantity one above it. -/
theorem claim_C4_stock_status_witness :
    stockStatusOf (format_stock_items [mkStockHit 0 10]) =
      some (.pstr "Hết hàng") ∧
    stockStatusOf (format_stock_items [mkStockHit 10 10]) =
      some (.pstr "Sắp hết hàng") ∧
    stockStatusOf (format_stock_items [mkStockHit 11 10]) =
      some (.pstr "Còn hàng") := by
  refine ⟨(claim_C4_stock_status 0 10).1 rfl,
    (claim_C4_stock_status 10 10).2.1 (by norm_num) (by norm_num),
    (claim_C4_stock_status 11 10).2.2 (by norm_num) (by norm_num)⟩

/-- Stock hit whose `_source` carries only a price value; used for
Claim C7. -/
def mkPriceHit (price : PyVal) : PyVal :=
  .pdict [("_source", .pdict [("price", price)])]

/-- Counterexample to Claim C7: a non-numeric price value does not yield the
"0 VND" fallback — `float("abc")` raises `ValueError`, so the stock-check
formatting fails (the surrounding handler catches it into a `status: error`
result). -/
theorem claim_C7_counterexample :
    format_stock_items [mkPriceHit (.pstr "abc")] = .error "ValueError" := by
  rfl

/-- Claim C7 (amended): the price formatting renders 1234567 as
"1,234,567 VND" and 0 as "0 VND", and a missing price is defaulted to 0 and
rendered "0 VND"; but a non-numeric price value raises `ValueError` inside
the formatting (surfaced as the stock-check handler's error result), rather
than producing the "0 VND" fallback. -/
theorem claim_C7_price_format :
    stockPriceOf (format_stock_items [mkPriceHit (.pint 1234567)]) =
      some (.pstr "1,234,567 VND") ∧
    stockPriceOf (format_stock_items [mkPriceHit (.pint 0)]) =
      some (.pstr "0 VND") ∧
    stockPriceOf (format_stock_items [.pdict [("_source", .pdict [])]]) =
      some (.pstr "0 VND") ∧
    (format_stock_items [mkPriceHit (.pstr "abc")]).isOk = false := by
  refine ⟨rfl, rfl, rfl, rfl⟩

/-! ## Claim C5: outbound send with refresh-and-retry on 401 -/

/-- Cached token state of `ZaloInteractionService` (`self._access_token` and
`self._token_expiry`). -/
structure ZaloState where
  access_token : Option String
  token_expiry : Option Nat
deriving Repr

/-- External world of one `send_group_message` call: the current clock, the
outcome of each successive OAuth refresh call (`some token`, or `none` when
the request fails or the response carries no `access_token`), and the status
code and body of each successive provider send. -/
structure ZaloEnv where
  now : Nat
  refreshResult : Nat → Option String
  sendResult : Nat → Nat × String

/-- The cached-token validity test at the top of `_get_access_token`:
`self._access_token and self._token_expiry and datetime.now() < self._token_expiry`
(Python truthiness: an empty-string token is falsy). -/
def tokenCacheValid (env : ZaloEnv) (st : ZaloState) : Bool :=
  match st.access_token, st.token_expiry with
  | some t, some e => t ≠ "" ∧ env.now < e
  | _, _ => false

/-- Embedding of `ZaloInteractionService._get_access_token`
(`app/api/services/zalo/zalo_interaction.py`): return the cached token when
still valid; otherwise perform one OAuth refresh call (the `ri`-th offered
by the environment), storing the new token with a 24-hour expiry on success
and clearing the cache and raising an `HTTPException` on failure.  The
second component is the next refresh index, i.e. how many refresh calls
have been performed so far. -/
def get_access_token (env : ZaloEnv) (st : ZaloState) (ri : Nat) :
    Except String (String × ZaloState) × Nat :=
  if tokenCacheValid env st then
    (.ok (st.access_token.getD "", st), ri)
  else
    match env.refreshResult ri with
    | some t => (.ok (t, ⟨some t, some (env.now + 24)⟩), ri + 1)
    | none => (.error "Failed to get Zalo access token", ri + 1)

/-- Observable outcome of one `send_group_message` call. -/
structure SendOutcome where
  result : Except String String
  sends : Nat
  refreshes : Nat
  invalidations : Nat
deriving Repr

/-- Embedding of `ZaloInteractionService.send_group_message`: obtain an
access token (cached, or via one refresh), post the message; if and only if
the response status is 401, clear the cached token, acquire a fresh one and
retry the post exactly once; finally `response.raise_for_status()` raises
for any status of 400 or above (a second 401 is therefore fatal) and
otherwise the response body is returned. -/
def send_group_message (env : ZaloEnv) (st : ZaloState) : SendOutcome :=
  match get_access_token env st 0 with
  | (.error e, r1) => ⟨.error e, 0, r1, 0⟩
  | (.ok _, r1) =>
      let resp1 := env.sendResult 0
      if resp1.1 = 401 then
        match get_access_token env ⟨none, none⟩ r1 with
        | (.error e, r2) => ⟨.error e, 1, r2, 1⟩
        | (.ok _, r2) =>
            let resp2 := env.sendResult 1
            if 400 ≤ resp2.1 then ⟨.error "HTTPError", 2, r2, 1⟩
            else ⟨.ok resp2.2, 2, r2, 1⟩
      else if 400 ≤ resp1.1 then ⟨.error "HTTPError", 1, r1, 0⟩
      else ⟨.ok resp1.2, 1, r1, 0⟩

/-- Number of refresh calls the initial token acquisition performs: none
when the cache is valid, exactly one otherwise. -/
def initialRefreshes (env : ZaloEnv) (st : ZaloState) : Nat :=
  if tokenCacheValid env st then 0 else 1

/-- Claim C5: if the first send returns HTTP 401, the cached token is
invalidated exactly once, one fresh refresh is performed and the send is
retried exactly once more; a second consecutive 401 makes the call fail
with no further retry; no other status code triggers a retry; and if the
first send succeeds there is no refresh beyond the initial acquisition and
no retry. -/
theorem claim_C5_send_retry (env : ZaloEnv) (st : ZaloState)
    (hinit : tokenCacheValid env st = true ∨
      ∃ t, env.refreshResult 0 = some t) :
    ((env.sendResult 0).1 = 401 →
      (∃ t, env.refreshResult (initialRefreshes env st) = some t) →
      (send_group_message env st).invalidations = 1 ∧
      (send_group_message env st).sends = 2 ∧
      (send_group_message env st).refreshes =
        initialRefreshes env st + 1) ∧
    ((env.sendResult 0).1 = 401 → (env.sendResult 1).1 = 401 →
      (∃ t, env.refreshResult (initialRefreshes env st) = some t) →
      (send_group_message env st).result.isOk = false ∧
      (send_group_message env st).sends = 2) ∧
    ((env.sendResult 0).1 ≠ 401 →
      (send_group_message env st).sends = 1 ∧
      (send_group_message env st).invalidations = 0 ∧
      (send_group_message env st).refreshes = initialRefreshes env st) ∧
    ((env.sendResult 0).1 = 200 →
      (send_group_message env st).result = .ok (env.sendResult 0).2 ∧
      (send_group_message env st).sends = 1 ∧
      (send_group_message env st).refreshes = initialRefreshes env st) := by
  have hcache : tokenCacheValid env ⟨none, none⟩ = false := rfl
  rcases hfirst : tokenCacheValid env st with hv | hv
  · -- cache invalid: the initial acquisition refreshes once
    obtain ⟨t0, ht0⟩ := hinit.resolve_left (by simp [hfirst])
    have hinit1 : initialRefreshes env st = 1 := by
      simp [initialRefreshes, hfirst]
    refine ⟨fun h401 hret => ?_, fun h401 h401b hret => ?_,
      fun hne => ?_, fun h200 => ?_⟩
    · obtain ⟨t1, ht1⟩ := hret
      rw [hinit1] at ht1
      simp [send_group_message, get_access_token, hfirst, hcache, ht0, ht1,
        h401, hinit1]
      split <;> simp
    · obtain ⟨t1, ht1⟩ := hret
      rw [hinit1] at ht1
      simp [send_group_message, get_access_token, hfirst, hcache, ht0, ht1,
        h401, h401b, Except.isOk, Except.toBool]
    · simp [send_group_message, get_access_token, hfirst, hcache, ht0,
        hne, hinit1]
      split <;> simp
    · have hne : (env.sendResult 0).1 ≠ 401 := by rw [h200]; decide
      have hlt : ¬ 400 ≤ (env.sendResult 0).1 := by rw [h200]; decide
      simp [send_group_message, get_access_token, hfirst, hcache, ht0,
        hne, hlt, hinit1]
  · -- cache valid: no initial refresh
    have hinit0 : initialRefreshes env st = 0 := by
      simp [initialRefreshes, hfirst]
    refine ⟨fun h401 hret => ?_, fun h401 h401b hret => ?_,
      fun hne => ?_, fun h200 => ?_⟩
    · obtain ⟨t1, ht1⟩ := hret
      rw [hinit0] at ht1
      simp [send_group_message, get_access_token, hfirst, hcache, ht1,
        h401, hinit0]
      split <;> simp
    · obtain ⟨t1, ht1⟩ := hret
      rw [hinit0] at ht1
      simp [send_group_message, get_access_token, hfirst, hcache, ht1,
        h401, h401b, Except.isOk, Except.toBool]
    · simp [send_group_message, get_access_token, hfirst, hcache,
        hne, hinit0]
      split <;> simp
    · have hne : (env.sendResult 0).1 ≠ 401 := by rw [h200]; decide
      have hlt : ¬ 400 ≤ (env.sendResult 0).1 := by rw [h200]; decide
      simp [send_group_message, get_access_token, hfirst, hcache,
        hne, hlt, hinit0]

/-- Witness for Claim C5 at concrete environments: a 401-then-200 exchange
(one invalidation, one extra refresh, exactly one retry), two consecutive
401s (failure after two sends), a non-401 failure (no retry), and a
first-send success from a valid cache (no refresh at all). -/
theorem claim_C5_send_retry_witness :
    ((send_group_message
        ⟨0, fun _ => some "tok",
          fun i => if i = 0 then (401, "expired") else (200, "sent")⟩
        ⟨none, none⟩).invalidations = 1 ∧
      (send_group_message
        ⟨0, fun _ => some "tok",
          fun i => if i = 0 then (401, "expired") else (200, "sent")⟩
        ⟨none, none⟩).sends = 2 ∧
      (send_group_message
        ⟨0, fun _ => some "tok",
          fun i => if i = 0 then (401, "expired") else (200, "sent")⟩
        ⟨none, none⟩).refreshes = 2) ∧
    ((send_group_message ⟨0, fun _ => some "tok", fun _ => (401, "expired")⟩
        ⟨none, none⟩).result.isOk = false ∧
      (send_group_message ⟨0, fun _ => some "tok", fun _ => (401, "expired")⟩
        ⟨none, none⟩).sends = 2) ∧
    ((send_group_message ⟨0, fun _ => some "tok", fun _ => (500, "oops")⟩
        ⟨none, none⟩).sends = 1 ∧
      (send_group_message ⟨0, fun _ => some "tok", fun _ => (500, "oops")⟩
        ⟨none, none⟩).invalidations = 0 ∧
      (send_group_message ⟨0, fun _ => some "tok", fun _ => (500, "oops")⟩
        ⟨none, none⟩).refreshes = 1) ∧
    ((send_group_message ⟨0, fun _ => some "tok", fun _ => (200, "sent")⟩
        ⟨some "cached", some 5⟩).result = .ok "sent" ∧
      (send_group_message ⟨0, fun _ => some "tok", fun _ => (200, "sent")⟩
        ⟨some "cached", some 5⟩).sends = 1 ∧
      (send_group_message ⟨0, fun _ => some "tok", fun _ => (200, "sent")⟩
        ⟨some "cached", some 5⟩).refreshes = 0) := by
  refine ⟨?_, ?_, ?_, ?_⟩
  · have h := claim_C5_send_retry
      ⟨0, fun _ => some "tok",
        fun i => if i = 0 then (401, "expired") else (200, "sent")⟩
      ⟨none, none⟩ (Or.inr ⟨"tok", rfl⟩)
    simpa [initialRefreshes, tokenCacheValid] using h.1 rfl ⟨"tok", rfl⟩
  · have h := claim_C5_send_retry
      ⟨0, fun _ => some "tok", fun _ => (401, "expired")⟩
      ⟨none, none⟩ (Or.inr ⟨"tok", rfl⟩)
    exact h.2.1 rfl rfl ⟨"tok", rfl⟩
  · have h := claim_C5_send_retry
      ⟨0, fun _ => some "tok", fun _ => (500, "oops")⟩
      ⟨none, none⟩ (Or.inr ⟨"tok", rfl⟩)
    simpa [initialRefreshes, tokenCacheValid] using h.2.2.1 (by decide)
  · have h := claim_C5_send_retry
      ⟨0, fun _ => some "tok", fun _ => (200, "sent")⟩
      ⟨some "cached", some 5⟩ (Or.inl (by decide))
    simpa [initialRefreshes, tokenCacheValid] using h.2.2.2 rfl

/-! ## Claim C8: payload parsing -/

/-- Substring test on character lists. -/
def containsSub (needle : List Char) : List Char → Bool
  | [] => needle.isEmpty
  | c :: rest => if needle.isPrefixOf (c :: rest) then true
      else containsSub needle rest

/-- Model of Python `needle in hay` for strings. -/
def strContains (hay needle : String) : Bool :=
  containsSub needle.data hay.data

example : strContains "user_send_file" "file" = true := by rfl
example : strContains "user_send_group_text" "file" = false := by rfl

/-- Embedding of `ZaloParser.parse_message`
(`app/api/services/zalo/zalo_parser.py`): build the parsed-data dictionary
from `payload.get(...)` chains, then, when `message.attachments` is truthy,
read `attachments[0].get("payload", {})` and add the attachment fields
selected by substring-matching the event name against "file", "sticker" and
"image" (an event name matching none of the three adds no fields).  Each
`.get` on a non-dictionary value and `in` on a non-string event name raise,
which the model surfaces as `.error`. -/
def parse_message (payload : PyVal) : Except String (PyVal × PyVal) := do
  let event_type ← pyGetD payload "event_name" (.pstr "unknown")
  let message ← pyGetD payload "message" (.pdict [])
  let conversation_id ← pyGetD message "msg_id" (.pstr "")
  let sender ← pyGetD payload "sender" (.pdict [])
  let sender_id ← pyGetD sender "id" (.pstr "")
  let recipient ← pyGetD payload "recipient" (.pdict [])
  let group_id ← pyGetD recipient "id" .pnone
  let message_text ← pyGetD message "text" .pnone
  let base := [("conversation_id", conversation_id),
    ("sender_id", sender_id), ("group_id", group_id),
    ("event_type", event_type), ("message_text", message_text),
    ("raw_payload", payload)]
  let attachments ← pyGetD message "attachments" (.plist [])
  if pyTruthy attachments then do
    let first ←
      match attachments with
      | .plist (a :: _) => Except.ok a
      | _ => Except.error "TypeError"
    let attachment ← pyGetD first "payload" (.pdict [])
    match event_type with
    | .pstr et =>
        if strContains et "file" then do
          let file_url ← pyGetD attachment "url" .pnone
          let file_name ← pyGetD attachment "name" .pnone
          let file_type ← pyGetD attachment "type" .pnone
          pure (event_type, .pdict (base ++ [("file_url", file_url),
            ("file_name", file_name), ("file_type", file_type)]))
        else if strContains et "sticker" then do
          let sticker_id ← pyGetD attachment "id" .pnone
          let sticker_url ← pyGetD attachment "url" .pnone
          pure (event_type, .pdict (base ++ [("sticker_id", sticker_id),
            ("sticker_url", sticker_url)]))
        else if strContains et "image" then do
          let image_url ← pyGetD attachment "url" .pnone
          let thumbnail_url ← pyGetD attachment "thumbnail" .pnone
          pure (event_type, .pdict (base ++ [("image_url", image_url),
            ("thumbnail_url", thumbnail_url)]))
        else pure (event_type, .pdict base)
    | _ => Except.error "TypeError"
  else
    pure (event_type, .pdict base)

/-- Counterexample to Claim C8: on the dictionary payload
`{"message": 5}` — a dictionary, merely with a non-object `message` value —
`parse_message` raises (`5 .get(...)` is an `AttributeError`), so the
parser does not return an Event for every dictionary payload. -/
theorem claim_C8_counterexample :
    parse_message (.pdict [("message", .pint 5)]) =
      .error "AttributeError" := by
  rfl

/-- A provider payload of the expected shapes with every field optional:
`event_name` a string when present, `message` an object carrying optional
`msg_id`, `text` and a one-element `attachments` list whose `payload` is an
object, and `sender`/`recipient` objects. -/
def mkZaloMessage (mid tx : Option PyVal)
    (att : Option (List (String × PyVal))) : PyVal :=
  .pdict ((match mid with | some v => [("msg_id", v)] | none => []) ++
    (match tx with | some v => [("text", v)] | none => []) ++
    (match att with
     | some kvs =>
         [("attachments", PyVal.plist [PyVal.pdict [("payload",
           PyVal.pdict kvs)]])]
     | none => []))

def mkZaloPayload (en : Option String)
    (msg : Option (Option PyVal × Option PyVal ×
      Option (List (String × PyVal))))
    (snd rcp : Option (List (String × PyVal))) : PyVal :=
  .pdict ((match en with
     | some s => [("event_name", PyVal.pstr s)]
     | none => []) ++
    (match msg with
     | some m => [("message", mkZaloMessage m.1 m.2.1 m.2.2)]
     | none => []) ++
    (match snd with
     | some kvs => [("sender", PyVal.pdict kvs)]
     | none => []) ++
    (match rcp with
     | some kvs => [("recipient", PyVal.pdict kvs)]
     | none => []))

/-- The parsed-data component of a successful parse; used in theorem
statements. -/
def parsedOf (r : Except String (PyVal × PyVal)) : PyVal :=
  match r with
  | .ok p => p.2
  | .error _ => .pnone

/-- The event-type component of a successful parse; used in theorem
statements. -/
def eventOf (r : Except String (PyVal × PyVal)) : PyVal :=
  match r with
  | .ok p => p.1
  | .error _ => .pnone

/-- The six always-present fields of the parsed-data dictionary, evaluated
on a `mkZaloPayload` payload. -/
def baseOf (en : Option String)
    (msg : Option (Option PyVal × Option PyVal ×
      Option (List (String × PyVal))))
    (snd rcp : Option (List (String × PyVal))) : List (String × PyVal) :=
  [("conversation_id",
      match msg with
      | some m => m.1.getD (.pstr "")
      | none => .pstr ""),
   ("sender_id",
      match snd with
      | some kvs => (assocFind kvs "id").getD (.pstr "")
      | none => .pstr ""),
   ("group_id",
      match rcp with
      | some kvs => (assocFind kvs "id").getD .pnone
      | none => .pnone),
   ("event_type", .pstr (en.getD "unknown")),
   ("message_text",
      match msg with
      | some m => m.2.1.getD .pnone
      | none => .pnone),
   ("raw_payload", mkZaloPayload en msg snd rcp)]

/-- The attachment-dependent tail of `parse_message` on a `mkZaloPayload`
payload whose attachment is present. -/
def attachPart (et : String) (akvs : List (String × PyVal))
    (base : List (String × PyVal)) : Except String (PyVal × PyVal) :=
  if strContains et "file" then
    .ok (.pstr et, .pdict (base ++
      [("file_url", (assocFind akvs "url").getD .pnone),
       ("file_name", (assocFind akvs "name").getD .pnone),
       ("file_type", (assocFind akvs "type").getD .pnone)]))
  else if strContains et "sticker" then
    .ok (.pstr et, .pdict (base ++
      [("sticker_id", (assocFind akvs "id").getD .pnone),
       ("sticker_url", (assocFind akvs "url").getD .pnone)]))
  else if strContains et "image" then
    .ok (.pstr et, .pdict (base ++
      [("image_url", (assocFind akvs "url").getD .pnone),
       ("thumbnail_url", (assocFind akvs "thumbnail").getD .pnone)]))
  else .ok (.pstr et, .pdict base)

/-- Closed-form evaluation of `parse_message` on a `mkZaloPayload`
payload. -/
def parse_expected (en : Option String)
    (msg : Option (Option PyVal × Option PyVal ×
      Option (List (String × PyVal))))
    (snd rcp : Option (List (String × PyVal))) :
    Except String (PyVal × PyVal) :=
  match msg with
  | some (_, _, some akvs) =>
      attachPart (en.getD "unknown") akvs (baseOf en msg snd rcp)
  | _ => .ok (.pstr (en.getD "unknown"), .pdict (baseOf en msg snd rcp))

/-- Evaluation lemma: on every payload of the expected shapes,
`parse_message` agrees with its closed form. -/
theorem parse_message_mk_eval (en : Option String)
    (msg : Option (Option PyVal × Option PyVal ×
      Option (List (String × PyVal))))
    (snd rcp : Option (List (String × PyVal))) :
    parse_message (mkZaloPayload en msg snd rcp) =
      parse_expected en msg snd rcp := by
  rcases en with _ | s <;>
    rcases msg with _ | ⟨mid, tx, att⟩ <;>
    rcases snd with _ | skvs <;>
    rcases rcp with _ | rkvs <;>
    (try rcases att with _ | akvs) <;>
    (try rcases mid with _ | mv) <;>
    (try rcases tx with _ | tv) <;>
    rfl

set_option maxHeartbeats 800000

/-- Claim C8 (amended): for every payload of the provider's shapes — any
combination of the five fields may be absent, but a present `message`,
`sender`, `recipient` or attachment `payload` is an object and a present
`event_name` a string — `parse_message` returns an Event without raising;
absent fields produce `None` or empty defaults, and an attachment whose
event type matches none of "file", "sticker", "image" contributes no
attachment fields.  (A present field of the wrong shape raises, per the
counterexample.) -/
theorem claim_C8_parse_message (en : Option String)
    (msg : Option (Option PyVal × Option PyVal ×
      Option (List (String × PyVal))))
    (snd rcp : Option (List (String × PyVal))) :
    (parse_message (mkZaloPayload en msg snd rcp)).isOk = true ∧
    eventOf (parse_message (mkZaloPayload en msg snd rcp)) =
      .pstr (en.getD "unknown") ∧
    (strContains (en.getD "unknown") "file" = false →
     strContains (en.getD "unknown") "sticker" = false →
     strContains (en.getD "unknown") "image" = false →
      hasKey (parsedOf (parse_message (mkZaloPayload en msg snd rcp)))
        "file_url" = false ∧
      hasKey (parsedOf (parse_message (mkZaloPayload en msg snd rcp)))
        "sticker_id" = false ∧
      hasKey (parsedOf (parse_message (mkZaloPayload en msg snd rcp)))
        "image_url" = false) ∧
    (msg = none →
      dictGet (parsedOf (parse_message (mkZaloPayload en msg snd rcp)))
        "message_text" = some .pnone ∧
      dictGet (parsedOf (parse_message (mkZaloPayload en msg snd rcp)))
        "conversation_id" = some (.pstr "")) ∧
    (snd = none →
      dictGet (parsedOf (parse_message (mkZaloPayload en msg snd rcp)))
        "sender_id" = some (.pstr "")) ∧
    (rcp = none →
      dictGet (parsedOf (parse_message (mkZaloPayload en msg snd rcp)))
        "group_id" = some .pnone) := by
  simp only [parse_message_mk_eval]
  refine ⟨?_, ?_, fun h1 h2 h3 => ?_, fun hm => ?_, fun hs => ?_,
    fun hr => ?_⟩
  · rcases msg with _ | ⟨mid, tx, _ | akvs⟩
    · rfl
    · rfl
    · simp only [parse_expected, attachPart]
      split_ifs <;> rfl
  · rcases msg with _ | ⟨mid, tx, _ | akvs⟩
    · rfl
    · rfl
    · simp only [parse_expected, attachPart]
      split_ifs <;> rfl
  · rcases msg with _ | ⟨mid, tx, _ | akvs⟩
    · exact ⟨rfl, rfl, rfl⟩
    · exact ⟨rfl, rfl, rfl⟩
    · simp only [parse_expected, attachPart, h1, h2, h3,
        Bool.false_eq_true, if_false]
      exact ⟨rfl, rfl, rfl⟩
  · subst hm
    exact ⟨rfl, rfl⟩
  · subst hs
    rcases msg with _ | ⟨mid, tx, _ | akvs⟩
    · rfl
    · rfl
    · simp only [parse_expected, attachPart]
      split_ifs <;> rfl
  · subst hr
    rcases msg with _ | ⟨mid, tx, _ | akvs⟩
    · rfl
    · rfl
    · simp only [parse_expected, attachPart]
      split_ifs <;> rfl

/-- Witness for Claim C8: a payload whose event type
"user_send_group_text" matches no attachment kind, with a present
attachment, a sender and no recipient. -/
theorem claim_C8_parse_message_witness :
    (parse_message (mkZaloPayload (some "user_send_group_text")
      (some (some (.pstr "M1"), some (.pstr "hello"),
        some [("url", .pstr "u")]))
      (some [("id", .pstr "U1")]) none)).isOk = true ∧
    hasKey (parsedOf (parse_message (mkZaloPayload
      (some "user_send_group_text")
      (some (some (.pstr "M1"), some (.pstr "hello"),
        some [("url", .pstr "u")]))
      (some [("id", .pstr "U1")]) none))) "file_url" = false ∧
    dictGet (parsedOf (parse_message (mkZaloPayload
      (some "user_send_group_text")
      (some (some (.pstr "M1"), some (.pstr "hello"),
        some [("url", .pstr "u")]))
      (some [("id", .pstr "U1")]) none))) "group_id" = some .pnone := by
  have h := claim_C8_parse_message (some "user_send_group_text")
    (some (some (.pstr "M1"), some (.pstr "hello"),
      some [("url", .pstr "u")]))
    (some [("id", .pstr "U1")]) none
  exact ⟨h.1, (h.2.2.1 rfl rfl rfl).1, h.2.2.2.2.2 rfl⟩

/-! ## Claim C6: audit write before dispatch and reply -/

/-- Total dictionary lookup with default, for receivers that are
dictionaries by construction (`parsed_data`, the webhook payload after a
successful parse): Python `d.get(k, default)`. -/
def dictGetD (v : PyVal) (k : String) (d : PyVal) : PyVal :=
  (dictGet v k).getD d

/-- Item assignment on a dictionary-by-construction receiver. -/
def pyDictSet (v : PyVal) (k : String) (x : PyVal) : PyVal :=
  match v with
  | .pdict kvs => .pdict (assocSet kvs k x)
  | _ => v

/-- Model of Python `d[k] = v` where the receiver may be any value, as in
`final_intent["parameters"]["query"] = ...`: a `TypeError` on a
non-dictionary. -/
def pySetItem (v : PyVal) (k : String) (x : PyVal) : Except String PyVal :=
  match v with
  | .pdict kvs => .ok (.pdict (assocSet kvs k x))
  | _ => .error "TypeError"

/-- Truthiness of the optional `response_text` string. -/
def optStrTruthy : Option String → Bool
  | none => false
  | some s => s ≠ ""

/-- The observable pipeline steps Claim C6 is about: the durable
conversation-record write, a dispatch into `handle_inventory_action`, and an
outbound provider send. -/
inductive Step where
  | store : Step
  | dispatch : Step
  | send : Step
deriving DecidableEq, Repr

/-- External collaborators of one webhook run: the LLM call inside
`analyze_intent`, the LLM call inside `handle_normal_conversation`, the
database write of `store_conversation` (`storeOk`), the invoked inventory
handler's result dictionary, and the outbound send outcome. -/
structure PipelineEnv where
  llmIntent : Except String String
  normalReply : Except String String
  storeOk : Bool
  storeId : Nat
  inventoryResult : PyVal
  sendOk : Bool

/-- The dictionary `ConversationService.process_conversation` returns. -/
structure ConvResult where
  conversation_id : PyVal
  intent : PyVal
  response_text : Option String
  group_id : PyVal

/-- Embedding of `ConversationService.process_conversation`
(`app/api/services/conversation/conversation.py`): when the event type
contains "text" and the parsed message text is truthy, classify the intent
(`analyze_intent`) and, for a `NORMAL_CONVERSATION` intent, generate the
reply text; then perform the durable conversation write (`.store` in the
trace) and return the conversation summary.  A failing write raises, with
no steps recorded after the failure.  `convBranch` is the pre-store part:
intent analysis and optional reply generation. -/
def convBranch (env : PipelineEnv) (etv parsed : PyVal) :
    Except String (PyVal × Option String) :=
  match etv with
  | .pstr et =>
      if strContains et "text" &&
          pyTruthy (dictGetD parsed "message_text" .pnone) then
        let intent := analyze_intent env.llmIntent
        let parsed2 := pyDictSet parsed "llm_analysis" intent
        match pyGetD intent "intent" .pnone with
        | .error e => .error e
        | .ok kindv =>
            if isStrEq kindv "NORMAL_CONVERSATION" then
              match env.normalReply with
              | .error e => .error e
              | .ok t => .ok (parsed2, some t)
            else .ok (parsed2, none)
      else .ok (parsed, none)
  | _ => .error "TypeError"

def process_conversation (env : PipelineEnv) (etv parsed : PyVal) :
    Except String ConvResult × List Step :=
  match convBranch env etv parsed with
  | .error e => (.error e, [])
  | .ok (parsed2, response_text) =>
      if env.storeOk then
        (.ok ⟨.pint env.storeId, dictGetD parsed2 "llm_analysis" (.pdict []),
          response_text, dictGetD parsed2 "group_id" .pnone⟩, [Step.store])
      else (.error "DatabaseError", [])

/-- Embedding of the post-conversation part of
`WebhookService.process_webhook` (`app/api/services/webhook/webhook.py`):
inject the original query into the intent's parameters, then route on the
intent type — a `NORMAL_CONVERSATION` reply is sent directly (a send
failure propagates), stock-check and product-search intents dispatch their
handler and send its message through `handle_inventory_response` (which
swallows send failures), and any other truthy intent dispatches its handler
without sending. -/
def webhookRespond (env : PipelineEnv) (payload etv : PyVal)
    (conv : ConvResult) : Except String PyVal × List Step :=
  let result0 : List (String × PyVal) :=
    [("status", .pstr "success"),
     ("conversation_id", conv.conversation_id),
     ("event_type", etv)]
  if pyTruthy conv.intent then
    match pySubscript conv.intent "parameters" with
    | .error e => (.error e, [])
    | .ok params =>
        let qtext := dictGetD (dictGetD payload "message" (.pdict []))
          "text" .pnone
        match pySetItem params "query" qtext with
        | .error e => (.error e, [])
        | .ok params2 =>
            let fi2 := pyDictSet conv.intent "parameters" params2
            let intent_type := dictGetD fi2 "intent" .pnone
            if isStrEq intent_type NORMAL_CONVERSATION then
              if optStrTruthy conv.response_text &&
                  pyTruthy conv.group_id then
                if env.sendOk then
                  (.ok (.pdict (result0 ++
                    [("response_sent", .pbool true),
                     ("response_text",
                       .pstr (conv.response_text.getD ""))])), [Step.send])
                else (.error "SendError", [Step.send])
              else
                (.ok (.pdict (result0 ++
                  [("response_sent", .pbool false)])), [])
            else if isStrEq intent_type CHECK_STOCK_LEVELS ||
                isStrEq intent_type SEARCH_PRODUCTS then
              let ia := env.inventoryResult
              if pyTruthy conv.group_id then
                match pyGetD ia "message"
                    (.pstr "Không có thông tin phản hồi") with
                | .error e =>
                    (.ok (.pdict (result0 ++
                      [("response_sent", .pbool false), ("error", .pstr e),
                       ("inventory_action", ia)])), [Step.dispatch])
                | .ok m =>
                    if env.sendOk then
                      (.ok (.pdict (result0 ++
                        [("response_sent", .pbool true),
                         ("response_text", m),
                         ("inventory_action", ia)])),
                        [Step.dispatch, Step.send])
                    else
                      (.ok (.pdict (result0 ++
                        [("response_sent", .pbool false),
                         ("error", .pstr "SendError"),
                         ("inventory_action", ia)])),
                        [Step.dispatch, Step.send])
              else
                (.ok (.pdict (result0 ++
                  [("response_sent", .pbool false),
                   ("error", .pstr "No group ID provided"),
                   ("inventory_action", ia)])), [Step.dispatch])
            else
              (.ok (.pdict (result0 ++
                [("inventory_action", env.inventoryResult)])),
                [Step.dispatch])
  else (.ok (.pdict result0), [])

/-- Embedding of `WebhookService.process_webhook`: parse the provider
payload, record the conversation (with intent analysis), then respond; any
raised exception surfaces as an error (the route's HTTP 500). -/
def process_webhook (env : PipelineEnv) (payload : PyVal) :
    Except String PyVal × List Step :=
  match parse_message payload with
  | .error e => (.error e, [])
  | .ok (etv, parsed) =>
      match process_conversation env etv parsed with
      | (.error e, tr) => (.error e, tr)
      | (.ok conv, tr) =>
          let rb := webhookRespond env payload etv conv
          (rb.1, tr ++ rb.2)

/-- A failing conversation write makes `process_conversation` raise with an
empty step trace. -/
theorem process_conversation_store_fail (env : PipelineEnv)
    (etv parsed : PyVal) (h : env.storeOk = false) :
    (process_conversation env etv parsed).1.isOk = false ∧
    (process_conversation env etv parsed).2 = [] := by
  unfold process_conversation
  rcases hbr : convBranch env etv parsed with e | ⟨p2, rt⟩ <;>
    simp [hbr, h, Except.isOk, Except.toBool]

/-- Shape lemma: `process_conversation` either raises before any step or performs
exactly the store step. -/
theorem process_conversation_shape (env : PipelineEnv)
    (etv parsed : PyVal) :
    ((process_conversation env etv parsed).1.isOk = false ∧
      (process_conversation env etv parsed).2 = []) ∨
    (process_conversation env etv parsed).2 = [Step.store] := by
  unfold process_conversation
  rcases hbr : convBranch env etv parsed with e | ⟨p2, rt⟩
  · left
    simp [hbr, Except.isOk, Except.toBool]
  · by_cases h : env.storeOk
    · right
      simp [hbr, h]
    · left
      simp [hbr, h, Except.isOk, Except.toBool]

/-- Claim C6: within one webhook's processing, the durable
conversation-record write precedes every inventory dispatch and every
outbound reply (every non-empty step trace starts with the store step); and
if the conversation write fails, the pipeline surfaces an error and neither
sends a reply nor dispatches a handler. -/
theorem claim_C6_audit_before_action (env : PipelineEnv) (payload : PyVal) :
    (env.storeOk = false →
      (process_webhook env payload).1.isOk = false ∧
      Step.send ∉ (process_webhook env payload).2 ∧
      Step.dispatch ∉ (process_webhook env payload).2) ∧
    ((process_webhook env payload).2 ≠ [] →
      ∃ rest, (process_webhook env payload).2 = Step.store :: rest) := by
  constructor
  · intro h
    unfold process_webhook
    rcases hp : parse_message payload with e | ⟨etv, parsed⟩
    · simp [Except.isOk, Except.toBool]
    · obtain ⟨h1, h2⟩ := process_conversation_store_fail env etv parsed h
      rcases hc : process_conversation env etv parsed with ⟨r, tr⟩
      rw [hc] at h1 h2
      simp only at h1 h2
      rcases r with e' | c
      · simp [hc, h2, Except.isOk, Except.toBool]
      · simp [Except.isOk, Except.toBool] at h1
  · intro hne
    unfold process_webhook at hne ⊢
    rcases hp : parse_message payload with e | ⟨etv, parsed⟩
    · rw [hp] at hne
      simp at hne
    · rw [hp] at hne
      simp only [] at hne ⊢
      rcases hc : process_conversation env etv parsed with ⟨r, tr⟩
      have hsh := process_conversation_shape env etv parsed
      rw [hc] at hsh
      simp only at hsh
      rcases r with e' | c
      · rcases hsh with ⟨_, htr⟩ | htr
        · rw [hc, htr] at hne
          simp at hne
        · exact ⟨[], by simp [htr]⟩
      · rcases hsh with ⟨hfalse, _⟩ | htr
        · simp [Except.isOk, Except.toBool] at hfalse
        · exact ⟨(webhookRespond env payload etv c).2, by simp [htr]⟩

/-- Witness for Claim C6: a text-group-message payload, once with a failing
conversation write (error surfaced, nothing dispatched or sent) and once
with a successful write (the trace starts with the store step). -/
theorem claim_C6_audit_before_action_witness :
    ((process_webhook ⟨.ok "\x7b\x7d", .ok "hi", false, 7, .pdict [], true⟩
        (mkZaloPayload (some "user_send_group_text")
          (some (some (.pstr "M1"), some (.pstr "hello"), none))
          (some [("id", .pstr "U1")])
          (some [("id", .pstr "G1")]))).1.isOk = false ∧
      Step.send ∉ (process_webhook ⟨.ok "\x7b\x7d", .ok "hi", false, 7,
        .pdict [], true⟩
        (mkZaloPayload (some "user_send_group_text")
          (some (some (.pstr "M1"), some (.pstr "hello"), none))
          (some [("id", .pstr "U1")])
          (some [("id", .pstr "G1")]))).2 ∧
      Step.dispatch ∉ (process_webhook ⟨.ok "\x7b\x7d", .ok "hi", false, 7,
        .pdict [], true⟩
        (mkZaloPayload (some "user_send_group_text")
          (some (some (.pstr "M1"), some (.pstr "hello"), none))
          (some [("id", .pstr "U1")])
          (some [("id", .pstr "G1")]))).2) ∧
    (∃ rest, (process_webhook ⟨.ok "\x7b\x7d", .ok "hi", true, 7,
        .pdict [], true⟩
        (mkZaloPayload (some "user_send_group_text")
          (some (some (.pstr "M1"), some (.pstr "hello"), none))
          (some [("id", .pstr "U1")])
          (some [("id", .pstr "G1")]))).2 = Step.store :: rest) := by
  constructor
  · exact (claim_C6_audit_before_action
      ⟨.ok "\x7b\x7d", .ok "hi", false, 7, .pdict [], true⟩
      (mkZaloPayload (some "user_send_group_text")
        (some (some (.pstr "M1"), some (.pstr "hello"), none))
        (some [("id", .pstr "U1")])
        (some [("id", .pstr "G1")]))).1 rfl
  · exact (claim_C6_audit_before_action
      ⟨.ok "\x7b\x7d", .ok "hi", true, 7, .pdict [], true⟩
      (mkZaloPayload (some "user_send_group_text")
        (some (some (.pstr "M1"), some (.pstr "hello"), none))
        (some [("id", .pstr "U1")])
        (some [("id", .pstr "G1")]))).2 (by decide)

/-! ## Claim C9: price expressions and the executed search -/

/-- Embedding of `SearchParams` (`app/models/search_params.py`); the
optional string/dict fields hold their Python value (`None` when absent)
and the price range holds optional integral min and max bounds. -/
structure SearchParams where
  query : PyVal
  category : PyVal
  color : PyVal
  price_range : Option (Option Int × Option Int)
  specifications : PyVal
  status : PyVal
  page : Nat
  size : Nat
deriving Repr

/-- Embedding of `SearchParams.from_parsed_params`: collect a price range
from the parsed price expression — operator `"<"` sets `max`, `">"` sets
`min`, `"between"` sets both (defaulting absent bounds to 0) and any other
operator (including `"="`) leaves the range empty, which becomes `None` —
then build the params from the remaining `.get` lookups.
`price_param["value"]` raises `KeyError` when absent and `float(...)`
raises on non-numeric values, hence the `Except`. -/
def from_parsed_params (parsed : List (String × PyVal)) :
    Except String SearchParams := do
  let price_param := (assocFind parsed "price").getD .pnone
  let pr ←
    if pyTruthy price_param && isDict price_param then
      if isStrEq (dictGetD price_param "operator" .pnone) "<" then do
        let v ← pySubscript price_param "value"
        let f ← pyToFloat v
        pure (some ((none : Option Int), some f))
      else if isStrEq (dictGetD price_param "operator" .pnone) ">" then do
        let v ← pySubscript price_param "value"
        let f ← pyToFloat v
        pure (some (some f, (none : Option Int)))
      else if isStrEq (dictGetD price_param "operator" .pnone) "between"
          then do
        let mn ← pyToFloat (dictGetD price_param "min" (.pint 0))
        let mx ← pyToFloat (dictGetD price_param "max" (.pint 0))
        pure (some (some mn, some mx))
      else pure none
    else pure none
  pure ⟨(assocFind parsed "query").getD .pnone,
    (assocFind parsed "category").getD .pnone,
    (assocFind parsed "color_code").getD .pnone,
    pr,
    (assocFind parsed "specifications").getD .pnone,
    (assocFind parsed "status").getD .pnone, 1, 10⟩

/-- The price-transformation step of `LLMService.parse_product_query`
(`app/api/services/conversation/chat.py`): a price already in dictionary
form is kept as-is, while a plain numeric value is converted to the
exact-match form `{"operator": "=", "value": float(value)}`. -/
def transformPrice (sp : List (String × PyVal)) :
    Except String (List (String × PyVal)) :=
  match assocFind sp "price" with
  | none => .ok sp
  | some p =>
      if isDict p then .ok sp
      else do
        let f ← pyToFloat p
        .ok (assocSet sp "price"
          (.pdict [("operator", .pstr "="), ("value", .pint f)]))

/-- The price block of `QueryBuilder.build_search_query`
(`app/query_builder.py`): a present `min` becomes `gte`, a present `max`
becomes `lte`, and a non-empty range query is appended to the filter
conditions. -/
def priceFilterConditions (pr : Option (Option Int × Option Int)) :
    List PyVal :=
  match pr with
  | none => []
  | some (mn, mx) =>
      let range : List (String × PyVal) :=
        (match mn with
         | some b => [("gte", .pint b)]
         | none => []) ++
        (match mx with
         | some b => [("lte", .pint b)]
         | none => [])
      if range.isEmpty then []
      else [.pdict [("range", .pdict [("price", .pdict range)])]]

/-- Embedding of `QueryBuilder.build_search_query`: assemble the
Elasticsearch query body from the search params (`should_conditions` is
never populated in the source, so the trailing `minimum_should_match` block
never fires; `specifications` iterates a dictionary value, its only shape
under the `SearchParams` type annotation). -/
def build_search_query (p : SearchParams) : PyVal :=
  let must_conditions : List PyVal :=
    (if pyTruthy p.query then
      [.pdict [("multi_match", .pdict [("query", p.query),
        ("fields", .plist [.pstr "title^3", .pstr "description^2",
          .pstr "category^2", .pstr "color_code",
          .pstr "specifications.*"]),
        ("type", .pstr "most_fields"), ("operator", .pstr "and"),
        ("fuzziness", .pstr "AUTO")])]]
     else []) ++
    (if pyTruthy p.category then
      [.pdict [("match", .pdict [("category", .pdict
        [("query", p.category), ("operator", .pstr "and")])])]]
     else []) ++
    (if pyTruthy p.color then
      [.pdict [("match", .pdict [("color_code", .pdict
        [("query", p.color), ("operator", .pstr "and")])])]]
     else []) ++
    (match p.specifications with
     | .pdict kvs =>
         if kvs.isEmpty then []
         else kvs.map (fun kv =>
           .pdict [("match", .pdict [("specifications." ++ kv.1, .pdict
             [("query", kv.2), ("operator", .pstr "and")])])])
     | _ => [])
  let filter_conditions : List PyVal :=
    priceFilterConditions p.price_range ++
    (if pyTruthy p.status then
      [.pdict [("term", .pdict [("status.keyword", p.status)])]]
     else [])
  .pdict [("query", .pdict [("bool", .pdict
      [("must", .plist must_conditions),
       ("filter", .plist filter_conditions)])]),
    ("from", .pint ((p.page - 1) * p.size)),
    ("size", .pint p.size),
    ("_source", .pbool true),
    ("sort", .plist [.pdict [("_score", .pstr "desc")],
      .pdict [("price", .pstr "asc")]])]

/-- The filter-conditions list inside an assembled query body; used in
theorem statements. -/
def queryFilterOf (q : PyVal) : Option PyVal :=
  match dictGet q "query" with
  | some qb =>
      match dictGet qb "bool" with
      | some b => dictGet b "filter"
      | none => none
  | none => none

/-- Counterexample to Claim C9: a plain numeric price (here 500000) is
converted by `parse_product_query` to the exact-match form
`{"operator": "=", "value": 500000}`, but `from_parsed_params` recognizes
only `"<"`, `">"` and `"between"`, so the price range comes out `None` and
the executed search receives no price filter at all — not an exact-match
price filter. -/
theorem claim_C9_counterexample :
    transformPrice [("price", .pint 500000)] =
      .ok [("price", .pdict [("operator", .pstr "="),
        ("value", .pint 500000)])] ∧
    Except.map SearchParams.price_range
      (from_parsed_params [("price", .pdict [("operator", .pstr "="),
        ("value", .pint 500000)])]) = .ok none ∧
    queryFilterOf (build_search_query
      ⟨.pnone, .pnone, .pnone, none, .pnone, .pnone, 1, 10⟩) =
      some (.plist []) := by
  exact ⟨rfl, rfl, rfl⟩

/-- Claim C9 (amended): operator "<" with value v yields a range filter
with max = v (an `lte` bound in the executed query); ">" yields min = v (a
`gte` bound); "between" yields both bounds; but a plain numeric value —
converted to the "=" form by `parse_product_query` — is dropped by
`from_parsed_params`, so no price filter is passed to the executed
search. -/
theorem claim_C9_price_filters (v mn mx : Int) :
    (from_parsed_params [("price", .pdict [("operator", .pstr "<"),
        ("value", .pint v)])] =
      .ok ⟨.pnone, .pnone, .pnone, some (none, some v), .pnone, .pnone,
        1, 10⟩ ∧
      queryFilterOf (build_search_query
        ⟨.pnone, .pnone, .pnone, some (none, some v), .pnone, .pnone,
          1, 10⟩) =
        some (.plist [.pdict [("range", .pdict [("price", .pdict
          [("lte", .pint v)])])]])) ∧
    (from_parsed_params [("price", .pdict [("operator", .pstr ">"),
        ("value", .pint v)])] =
      .ok ⟨.pnone, .pnone, .pnone, some (some v, none), .pnone, .pnone,
        1, 10⟩ ∧
      queryFilterOf (build_search_query
        ⟨.pnone, .pnone, .pnone, some (some v, none), .pnone, .pnone,
          1, 10⟩) =
        some (.plist [.pdict [("range", .pdict [("price", .pdict
          [("gte", .pint v)])])]])) ∧
    (from_parsed_params [("price", .pdict [("operator", .pstr "between"),
        ("min", .pint mn), ("max", .pint mx)])] =
      .ok ⟨.pnone, .pnone, .pnone, some (some mn, some mx), .pnone, .pnone,
        1, 10⟩ ∧
      queryFilterOf (build_search_query
        ⟨.pnone, .pnone, .pnone, some (some mn, some mx), .pnone, .pnone,
          1, 10⟩) =
        some (.plist [.pdict [("range", .pdict [("price", .pdict
          [("gte", .pint mn), ("lte", .pint mx)])])]])) ∧
    (transformPrice [("price", .pint v)] =
      .ok [("price", .pdict [("operator", .pstr "="),
        ("value", .pint v)])] ∧
      from_parsed_params [("price", .pdict [("operator", .pstr "="),
        ("value", .pint v)])] =
      .ok ⟨.pnone, .pnone, .pnone, none, .pnone, .pnone, 1, 10⟩) := by
  exact ⟨⟨rfl, rfl⟩, ⟨rfl, rfl⟩, ⟨rfl, rfl⟩, ⟨rfl, rfl⟩⟩

/-! ## Claim C10: the public webhook route's signature gate -/

/-- Outcome of the `create_webhook` route's signature gate. -/
inductive RouteOutcome where
  | unauthorized : RouteOutcome
  | processed : RouteOutcome
deriving DecidableEq, Repr

/-- Python truthiness of the optional `X-Webhook-Signature` header value:
an absent header is `None` and an empty header value is falsy too. -/
def headerTruthy : Option String → Bool
  | none => false
  | some s => s ≠ ""

/-- Embedding of the signature gate of the `create_webhook` route
(`app/api/routes/webhook.py`): `if x_webhook_signature and not
webhook_service.verify_signature(payload, x_webhook_signature)` raise 401,
otherwise store and process the payload. -/
def create_webhook_route (secretKey : Option String)
    (header : Option String) (rawBody : List Nat) : RouteOutcome :=
  if headerTruthy header &&
      !(verify_signature secretKey rawBody (header.getD "")) then
    .unauthorized
  else .processed

/-- Counterexample to Claim C10: with a configured secret and a present but
empty signature header, the header is falsy, so the route skips
verification and processes the payload — even though a signature header is
present and its verification fails, no 401 is raised.  This refutes the
"401 if and only if a signature header is present and verification fails"
direction. -/
theorem claim_C10_counterexample :
    create_webhook_route (some "k") (some "") [104, 105] = .processed ∧
    (some "" : Option String) ≠ none ∧
    verify_signature (some "k") [104, 105] "" = false := by
  refine ⟨rfl, by simp, ?_⟩
  decide

/-- Claim C10 (amended): signature verification is performed only when the
signature header is present and non-empty; every request with an absent or
empty header is processed with no signature check, even when a secret is
configured; and the 401 rejection happens if and only if the header is
non-empty and its verification fails. -/
theorem claim_C10_route (secretKey : Option String)
    (header : Option String) (rawBody : List Nat) :
    (headerTruthy header = false →
      create_webhook_route secretKey header rawBody = .processed) ∧
    (create_webhook_route secretKey header rawBody = .unauthorized ↔
      headerTruthy header = true ∧
      verify_signature secretKey rawBody (header.getD "") = false) := by
  constructor
  · intro h
    simp [create_webhook_route, h]
  · constructor
    · intro h
      by_contra hc
      rw [create_webhook_route] at h
      rcases ht : headerTruthy header with hv | hv
      · simp [ht] at h
      · rcases hv2 : verify_signature secretKey rawBody (header.getD "")
          with b | b
        · exact hc ⟨ht, hv2⟩
        · simp [ht, hv2] at h
    · intro h
      simp [create_webhook_route, h.1, h.2]

/-- Witness for Claim C10: an absent header with a configured secret is
processed unchecked, and a non-empty wrong signature is rejected. -/
theorem claim_C10_route_witness :
    create_webhook_route (some "k") none [104, 105] = .processed ∧
    create_webhook_route (some "k") (some "wrong") [104, 105] =
      .unauthorized := by
  constructor
  · exact (claim_C10_route (some "k") none [104, 105]).1 rfl
  · exact (claim_C10_route (some "k") (some "wrong") [104, 105]).2.mpr
      ⟨by decide, by decide⟩
